import Mathlib

/-!
Shallow embedding of `src/main.py`, a Hacker News scraper: listing pages are
parsed into story records (`parse_stories`), item-detail pages into comment
records (`parse_comments`), each story is enriched with the comments of its
detail page (`fetch_story_with_comments`), and a worker loop drains a queue of
listing-page URLs (`worker`), after which `main` prints a throughput line.

Markup is modelled by its selector view: BeautifulSoup's
`soup.select(".athing")` / `soup.select("tr.comtr")` return the matched
elements in document order, and the per-row `select_one` calls return the
first matching descendant or `None`; an `Html` value records exactly those
results.  A BeautifulSoup `Tag` is always truthy, so Python's
`if title_tag and story_id:` tests that `title_tag` is not `None` and that the
string `story_id` is neither `None` nor empty (`""` is falsy).  Attribute
subscription `title_tag["href"]` raises `KeyError` when the attribute is
absent, modelled by the `Except` error channel.  The network is an oracle
mapping a URL to the selector view of the fetched body, or to a network error;
wall-clock durations (Python floats from `perf_counter`) are idealized as
rationals, and the `{...:.0f}` float format as round-half-to-even on ℚ.
-/

deriving instance DecidableEq for Except

namespace HN

/-- One comment record: the dict `{"user": user, "text": text}` built by
`parse_comments` (src/main.py line 45). -/
structure Comment where
  user : String
  text : String
deriving DecidableEq

/-- One story record: the dict `{"id": story_id, "title": title, "link": link}`
built by `parse_stories` (src/main.py line 29).  `comments` is `none` until
`fetch_story_with_comments` assigns the `"comments"` key (line 54). -/
structure Story where
  id : String
  title : String
  link : String
  comments : Option (List Comment)
deriving DecidableEq

/-- Selector view of a title anchor, the element returned by
`item.select_one(".titleline > a")` (src/main.py line 23): `texts` is the list
of its descendant string nodes in document order (what `Tag.text`
concatenates) and `href` the value of its `href` attribute, `none` when the
anchor carries no such attribute (then `title_tag["href"]` raises
`KeyError`). -/
structure Anchor where
  texts : List String
  href : Option String
deriving DecidableEq

/-- Selector view of one listing row, an element matched by
`soup.select(".athing")` (src/main.py line 22): `id` is the value of its `id`
attribute as returned by `item.get("id")` (`none` when absent), `titleTag` the
result of `item.select_one(".titleline > a")`. -/
structure Row where
  id : Option String
  titleTag : Option Anchor
deriving DecidableEq

/-- Selector view of one comment row, an element matched by
`soup.select("tr.comtr")` (src/main.py line 38): the descendant string nodes
of `row.select_one(".hnuser")` and of `row.select_one(".commtext")`, `none`
when the corresponding `select_one` finds nothing. -/
structure CommentRow where
  userTag : Option (List String)
  commentTag : Option (List String)
deriving DecidableEq

/-- A markup text, seen through the only two selector queries the program
performs: its listing rows and its comment rows, each in document order.
`BeautifulSoup(html, "html.parser")` never raises, so every input text has
such a view (possibly with both lists empty). -/
structure Html where
  storyRows : List Row
  commentRows : List CommentRow
deriving DecidableEq

/-- Errors that can propagate: `KeyError` from BeautifulSoup attribute
subscription, and network errors from `aiohttp` (timeout, connection failure)
raised inside `fetch`. -/
inductive Err where
  | keyError (attr : String)
  | network (url : String)
deriving DecidableEq

/-- Python `str.strip()`: drop whitespace from both ends of the string. -/
def strip (s : String) : String :=
  String.mk (List.reverse (List.dropWhile Char.isWhitespace
    (List.reverse (List.dropWhile Char.isWhitespace s.data))))

/-- BeautifulSoup `Tag.text`: the concatenation, without separator, of all
descendant string nodes. -/
def tagText (texts : List String) : String := String.join texts

/-- BeautifulSoup `tag[attr]` (`Tag.__getitem__`): the attribute's value, or a
raised `KeyError` when the attribute is absent. -/
def getAttr (a : Option String) (attr : String) : Except Err String :=
  match a with
  | some v => Except.ok v
  | none => Except.error (Err.keyError attr)

/-- BeautifulSoup `get_text(separator=" ", strip=True)` (src/main.py line 44):
each descendant string is stripped, strings that are empty after stripping are
dropped, and the rest are joined with a single space. -/
def getTextSepStrip (texts : List String) : String :=
  String.intercalate " " ((texts.map strip).filter (fun s => !(s == "")))

/-- Loop body of `parse_stories` (src/main.py lines 22-31): for each listing
row, look up the title anchor and the row id; when the anchor is present and
the id is a nonempty string, strip the anchor text, read and strip its `href`
attribute (raising `KeyError` when absent), and append the story record;
otherwise skip the row. -/
def parse_stories_rows : List Row → Except Err (List Story)
  | [] => Except.ok []
  | item :: rest =>
    match item.titleTag, item.id with
    | some title_tag, some story_id =>
      if story_id = "" then parse_stories_rows rest
      else
        let title := strip (tagText title_tag.texts)
        match getAttr title_tag.href "href" with
        | Except.error e => Except.error e
        | Except.ok href =>
          let link := strip href
          match parse_stories_rows rest with
          | Except.error e => Except.error e
          | Except.ok stories =>
            Except.ok
              ({ id := story_id, title := title, link := link, comments := none } :: stories)
    | _, _ => parse_stories_rows rest

/-- Embedding of `parse_stories` (src/main.py lines 18-31). -/
def parse_stories (html : Html) : Except Err (List Story) :=
  parse_stories_rows html.storyRows

/-- Loop body of `parse_comments` (src/main.py lines 38-47): for each comment
row, look up the username element and the comment-body element; when both are
present append the comment record, otherwise skip the row.  No attribute
subscription occurs, so no exception can arise. -/
def parse_comments_rows : List CommentRow → List Comment
  | [] => []
  | row :: rest =>
    match row.userTag, row.commentTag with
    | some user_tag, some comment_tag =>
      { user := strip (tagText user_tag), text := getTextSepStrip comment_tag }
        :: parse_comments_rows rest
    | _, _ => parse_comments_rows rest

/-- Embedding of `parse_comments` (src/main.py lines 34-47). -/
def parse_comments (html : Html) : List Comment :=
  parse_comments_rows html.commentRows

/-- The network oracle: what `session.get(url)` followed by `response.text`
(src/main.py lines 14-15) yields for each URL — the selector view of the
response body, or a raised network error. -/
def Network : Type := String → Except Err Html

/-- Embedding of `fetch` (src/main.py lines 13-15): one GET request, returning
the body or propagating the transport's error.  No retry, no status check. -/
def fetch (session : Network) (url : String) : Except Err Html := session url

/-- The listing URL template `BASE_URL.format(page)` (src/main.py line 9). -/
def BASE_URL (page : Nat) : String :=
  "https://news.ycombinator.com/news?p=" ++ toString page

/-- The item URL template `ITEM_URL.format(story["id"])` (src/main.py line 10). -/
def ITEM_URL (id : String) : String :=
  "https://news.ycombinator.com/item?id=" ++ id

/-- Embedding of `fetch_story_with_comments` (src/main.py lines 50-55): fetch
the story's item-detail page, parse its comments, and return the story with
its `comments` field assigned; a fetch error propagates. -/
def fetch_story_with_comments (session : Network) (story : Story) : Except Err Story :=
  match fetch session (ITEM_URL story.id) with
  | Except.error e => Except.error e
  | Except.ok comment_html =>
    Except.ok { story with comments := some (parse_comments comment_html) }

/-- The per-page enrichment fan-out (src/main.py lines 61, 70-71): one
`fetch_story_with_comments` task per story, all awaited by the `TaskGroup`
before the loop continues.  The tasks run concurrently but are independent
(each mutates only its own story), so the batch is modelled by running them in
story order; a failing task makes the whole batch fail, as the `TaskGroup`
propagates the failure. -/
def enrich_page (session : Network) : List Story → Except Err (List Story)
  | [] => Except.ok []
  | story :: rest =>
    match fetch_story_with_comments session story with
    | Except.error e => Except.error e
    | Except.ok s =>
      match enrich_page session rest with
      | Except.error e => Except.error e
      | Except.ok ss => Except.ok (s :: ss)

/-- Embedding of `worker` (src/main.py lines 58-72).  The queue is a FIFO list;
`queue.get(block=False)` pops the head or raises `Empty` on an empty queue,
the one exception the code catches (lines 62-65), breaking the loop.  The
result is the pair of the worker's outcome — the stories it appended to
`all_stories` in order, or the error that crashed it — and the queue contents
it leaves behind. -/
def worker (session : Network) : List String → Except Err (List Story) × List String
  | [] => (Except.ok [], [])
  | page :: rest =>
    match fetch session page with
    | Except.error e => (Except.error e, rest)
    | Except.ok html =>
      match parse_stories html with
      | Except.error e => (Except.error e, rest)
      | Except.ok stories =>
        if stories.isEmpty then (Except.ok [], rest)
        else
          match enrich_page session stories with
          | Except.error e => (Except.error e, rest)
          | Except.ok enriched =>
            match worker session rest with
            | (Except.ok later, queueAfter) => (Except.ok (enriched ++ later), queueAfter)
            | (Except.error e, queueAfter) => (Except.error e, queueAfter)

/-- The queue contents built by `main` before any worker starts (src/main.py
lines 78-79): `BASE_URL.format(page)` for `page in range(1, 101)`. -/
def initial_queue : List String :=
  (List.range 100).map (fun i => BASE_URL (i + 1))

/-- Round half to even on ℚ, the rounding of Python's `{x:.0f}` float format
(src/main.py line 91), with the float idealized as a rational. -/
def rhe (q : ℚ) : ℤ :=
  if q - (⌊q⌋ : ℚ) < 1 / 2 then ⌊q⌋
  else if (1 : ℚ) / 2 < q - (⌊q⌋ : ℚ) then ⌊q⌋ + 1
  else if ⌊q⌋ % 2 = 0 then ⌊q⌋ else ⌊q⌋ + 1

/-- Python `f"{x:.0f}"`: the float rendered with zero decimals. -/
def format_f0 (q : ℚ) : String := toString (rhe q)

/-- The final printed line (src/main.py line 91), as a function of the story
count and the elapsed wall-clock duration. -/
def speed_line (total : Nat) (elapsed : ℚ) : String :=
  "Scraping speed: " ++ format_f0 ((total : ℚ) / elapsed) ++ " stories/sec"

/-- The banner printed in single-worker mode (src/main.py line 88). -/
def single_banner : String := "Using single thread for fetching stories..."

/-- The banner printed in pooled mode (src/main.py line 82). -/
def multi_banner : String := "Using multithreading for fetching stories..."

/-- Embedding of `main(multithreaded=False)` (src/main.py lines 75-91, else
branch): print the banner, run one worker on the full queue via
`asyncio.run`, and print the speed line.  The result is the list of lines
printed on stdout paired with the uncaught error, if any: when the worker
raises, `asyncio.run` re-raises, `main` is aborted and the speed line is never
printed. -/
def main_single (session : Network) (elapsed : ℚ) : List String × Option Err :=
  match (worker session initial_queue).1 with
  | Except.ok all_stories => ([single_banner, speed_line all_stories.length elapsed], none)
  | Except.error e => ([single_banner], some e)

/-- Embedding of `main(multithreaded=True)` (src/main.py lines 81-86): eight
workers drain the shared queue inside a `ThreadPoolExecutor`; each
`executor.submit` wraps its worker's outcome in an unread `Future`, so worker
errors are invisible to `main` and the speed line is always printed.  The
aggregate contents of `all_stories` after the pool joins depend on thread
interleaving and are taken as a parameter. -/
def main_pooled (all_stories : List Story) (elapsed : ℚ) : List String × Option Err :=
  ([multi_banner, speed_line all_stories.length elapsed], none)

/-- A listing row the extractor turns into a story: the title anchor is
present and carries an `href` attribute, and the row id is present and
nonempty (Python's truthiness test on the id string). -/
def wellFormedRow (r : Row) : Bool :=
  match r.titleTag, r.id with
  | some a, some i => !(i == "") && a.href.isSome
  | _, _ => false

/-- A listing row the extractor silently skips: the title anchor is absent, or
the row id is absent or empty. -/
def skippedRow (r : Row) : Bool :=
  match r.titleTag, r.id with
  | some _, some i => i == ""
  | _, _ => true

/-- The story record extracted from a well-formed listing row. -/
def storyOfRow (r : Row) : Story :=
  match r.titleTag, r.id with
  | some a, some i =>
    { id := i, title := strip (tagText a.texts), link := strip (a.href.getD ""),
      comments := none }
  | _, _ => { id := "", title := "", link := "", comments := none }

/-- A comment row the extractor keeps: both the username element and the
comment-body element are present. -/
def commentRowOk (r : CommentRow) : Bool :=
  r.userTag.isSome && r.commentTag.isSome

/-- The comment record extracted from a well-formed comment row. -/
def commentOfRow (r : CommentRow) : Comment :=
  { user := strip (tagText (r.userTag.getD [])),
    text := getTextSepStrip (r.commentTag.getD []) }

/-- Fixture: the well-formed listing row A of the spec's scenario,
`{id: "1", title: "Hello", link: "http://x"}`. -/
def rowA : Row :=
  { id := some "1", titleTag := some { texts := ["Hello"], href := some "http://x" } }

/-- Fixture: a listing row missing its title anchor (row B of the scenario). -/
def rowB : Row := { id := some "2", titleTag := none }

/-- Fixture: a listing row whose title anchor is present but carries no `href`
attribute, while the row id is present and nonempty. -/
def rowHrefless : Row :=
  { id := some "2", titleTag := some { texts := ["Oops"], href := none } }

/-- Fixture: another listing row whose title anchor lacks `href`. -/
def rowHrefless7 : Row :=
  { id := some "7", titleTag := some { texts := ["Bad"], href := none } }

/-- Fixture: a listing page holding only row A. -/
def listingHtml : Html := { storyRows := [rowA], commentRows := [] }

/-- Fixture: a well-formed comment row. -/
def commentRowAlice : CommentRow :=
  { userTag := some ["alice"], commentTag := some ["Nice ", " work"] }

/-- Fixture: the comment extracted from `commentRowAlice`. -/
def commentAlice : Comment := { user := "alice", text := "Nice work" }

/-- Fixture: an item-detail page holding one comment row and no listing rows. -/
def detailHtml : Html := { storyRows := [], commentRows := [commentRowAlice] }

/-- Fixture: the story extracted from row A, before enrichment. -/
def storyA0 : Story := { id := "1", title := "Hello", link := "http://x", comments := none }

/-- Fixture: the story extracted from row A, enriched against `detailHtml`. -/
def storyA1 : Story :=
  { id := "1", title := "Hello", link := "http://x", comments := some [commentAlice] }

/-- Fixture network: page 1 is the one-story listing, every other URL returns
the item-detail page. -/
def env1 : Network := fun url =>
  if url = BASE_URL 1 then Except.ok listingHtml else Except.ok detailHtml

/-- Fixture network: every URL returns the item-detail page (so the first
listing fetch yields zero stories). -/
def env_detail : Network := fun _ => Except.ok detailHtml

/-- Fixture network: page 1 is the one-story listing, every other URL raises a
network error. -/
def envMix : Network := fun url =>
  if url = BASE_URL 1 then Except.ok listingHtml else Except.error (Err.network url)

end HN

namespace HN

lemma parse_stories_rows_spec :
    ∀ rows : List Row, (∀ r ∈ rows, wellFormedRow r = true ∨ skippedRow r = true) →
      parse_stories_rows rows = Except.ok ((rows.filter wellFormedRow).map storyOfRow)
  | [], _ => rfl
  | r :: rest, h => by
    have hr := h r (List.mem_cons_self r rest)
    have hrest := parse_stories_rows_spec rest (fun x hx => h x (List.mem_cons_of_mem r hx))
    rcases r with ⟨rid, rtag⟩
    rcases rtag with _ | a
    · simpa [parse_stories_rows, wellFormedRow] using hrest
    · rcases rid with _ | i
      · simpa [parse_stories_rows, wellFormedRow] using hrest
      · by_cases hi : i = ""
        · subst hi
          simpa [parse_stories_rows, wellFormedRow] using hrest
        · have hwf : wellFormedRow ⟨some i, some a⟩ = true := by
            rcases hr with h1 | h1
            · exact h1
            · exfalso
              simp [skippedRow] at h1
              exact hi h1
          have ha : a.href.isSome = true := by
            simp [wellFormedRow, hi] at hwf
            exact hwf
          rcases hh : a.href with _ | v
          · rw [hh] at ha
            simp at ha
          · simp [parse_stories_rows, hi, getAttr, hh, hrest, wellFormedRow, storyOfRow]

lemma parse_comments_rows_spec :
    ∀ crows : List CommentRow,
      parse_comments_rows crows = (crows.filter commentRowOk).map commentOfRow
  | [] => rfl
  | r :: rest => by
    have ih := parse_comments_rows_spec rest
    rcases r with ⟨u, c⟩
    rcases u with _ | ut <;> rcases c with _ | ct <;>
      simp [parse_comments_rows, commentRowOk, commentOfRow, ih]

/-- Claim C1 (amended): on a listing page each of whose rows is either
well-formed — title anchor present and carrying an `href` attribute, row id
present and nonempty — or malformed in the sense of lacking the title anchor
or lacking a nonempty row id, `parse_stories` raises no error and returns
exactly the records of the well-formed rows, in document order, with the
malformed rows absent. -/
theorem story_extractor_skips_malformed_rows (rows : List Row) (crows : List CommentRow)
    (h : ∀ r ∈ rows, wellFormedRow r = true ∨ skippedRow r = true) :
    parse_stories { storyRows := rows, commentRows := crows } =
      Except.ok ((rows.filter wellFormedRow).map storyOfRow) :=
  parse_stories_rows_spec rows h

/-- Claim C1 witness: the spec's scenario — row A well-formed, row B missing
its title anchor — yields exactly row A's record. -/
theorem story_extractor_skips_malformed_rows_witness :
    (∀ r ∈ [rowA, rowB], wellFormedRow r = true ∨ skippedRow r = true) ∧
    parse_stories { storyRows := [rowA, rowB], commentRows := [] } =
      Except.ok [{ id := "1", title := "Hello", link := "http://x", comments := none }] := by
  refine ⟨by decide, ?_⟩
  have h := story_extractor_skips_malformed_rows [rowA, rowB] [] (by decide)
  exact h.trans (by decide)

/-- Claim C1 counterexample: a page with well-formed row A and a malformed row
whose title anchor and id are present but whose anchor lacks an `href`
attribute makes `parse_stories` raise `KeyError` instead of returning row A's
record, contradicting the claim that malformed rows are skipped with no error
raised. -/
theorem story_extractor_keyerror_counterexample :
    parse_stories { storyRows := [rowA, rowHrefless], commentRows := [] } =
      Except.error (Err.keyError "href") := by decide

/-- Claim C2: on any item-detail page `parse_comments` returns exactly the
records of the comment rows having both a username element and a comment-body
element, in document order; rows missing either element are excluded without
shifting the order of the remaining rows, and no error can arise. -/
theorem comment_extractor_filters_rows (rows : List Row) (crows : List CommentRow) :
    parse_comments { storyRows := rows, commentRows := crows } =
      (crows.filter commentRowOk).map commentOfRow :=
  parse_comments_rows_spec crows

/-- Claim C5 (amended): `parse_stories` is total — returning a possibly empty
list and skipping rows whose title anchor or nonempty row id is absent — on
every page in which each row having both elements also carries an `href`
attribute on its title anchor; in particular empty markup yields the empty
list.  (Unconditional totality fails: see the counterexample.) -/
theorem story_extractor_total_on_guarded_rows (rows : List Row) (crows : List CommentRow)
    (h : ∀ r ∈ rows, wellFormedRow r = true ∨ skippedRow r = true) :
    (∃ stories, parse_stories { storyRows := rows, commentRows := crows } =
      Except.ok stories) ∧
    parse_stories { storyRows := [], commentRows := [] } = Except.ok [] :=
  ⟨⟨(rows.filter wellFormedRow).map storyOfRow, parse_stories_rows_spec rows h⟩, rfl⟩

/-- Claim C5 witness: a page holding one row that lacks its title anchor
parses, without error, to the empty story list. -/
theorem story_extractor_total_witness :
    (∀ r ∈ [rowB], wellFormedRow r = true ∨ skippedRow r = true) ∧
    (∃ stories, parse_stories { storyRows := [rowB], commentRows := [] } =
      Except.ok stories) ∧
    parse_stories { storyRows := [], commentRows := [] } = Except.ok [] :=
  ⟨by decide, story_extractor_total_on_guarded_rows [rowB] [] (by decide)⟩

/-- Claim C5 counterexample: `parse_stories` is not total — a page holding a
single row whose title anchor lacks an `href` attribute (id present and
nonempty) makes it raise `KeyError` rather than return a sequence. -/
theorem story_extractor_raises_counterexample :
    parse_stories { storyRows := [rowHrefless7], commentRows := [] } =
      Except.error (Err.keyError "href") := by decide

end HN

namespace HN

lemma rhe_intCast (n : ℤ) : rhe (n : ℚ) = n := by
  simp [rhe]

lemma fetch_story_ok_shape (session : Network) (story s' : Story)
    (h : fetch_story_with_comments session story = Except.ok s') :
    ∃ cs, s' = { id := story.id, title := story.title, link := story.link,
                 comments := some cs } := by
  unfold fetch_story_with_comments at h
  rcases hf : fetch session (ITEM_URL story.id) with e | html
  · rw [hf] at h
    simp at h
  · rw [hf] at h
    simp at h
    exact ⟨parse_comments html, h.symm⟩

lemma enrich_page_mem_comments (session : Network) :
    ∀ (ss es : List Story), enrich_page session ss = Except.ok es →
      ∀ s ∈ es, s.comments.isSome = true
  | [], es, h => by
    simp [enrich_page] at h
    subst h
    simp
  | t :: ts, es, h => by
    rw [enrich_page] at h
    rcases hf : fetch_story_with_comments session t with e | s'
    · rw [hf] at h
      simp at h
    · rw [hf] at h
      rcases he : enrich_page session ts with e | es'
      · rw [he] at h
        simp at h
      · rw [he] at h
        simp at h
        subst h
        intro s hs
        rcases List.mem_cons.1 hs with hs | hs
        · subst hs
          obtain ⟨cs, rfl⟩ := fetch_story_ok_shape session t s hf
          simp
        · exact enrich_page_mem_comments session ts es' he s hs

lemma enrich_page_error_of_mem (session : Network) :
    ∀ (ss : List Story) (s : Story) (e : Err), s ∈ ss →
      fetch session (ITEM_URL s.id) = Except.error e →
      ∃ e', enrich_page session ss = Except.error e'
  | [], s, e, hs, _ => by simp at hs
  | t :: ts, s, e, hs, hfe => by
    rcases hf : fetch_story_with_comments session t with e0 | s'
    · exact ⟨e0, by rw [enrich_page, hf]⟩
    · have hst : s ∈ ts := by
        rcases List.mem_cons.1 hs with h1 | h1
        · exfalso
          subst h1
          unfold fetch_story_with_comments at hf
          rw [hfe] at hf
          simp at hf
        · exact h1
      obtain ⟨e', he'⟩ := enrich_page_error_of_mem session ts s e hst hfe
      exact ⟨e', by rw [enrich_page, hf, he']⟩

/-- Claim C3: enriching a story against a detail page leaves its `id`, `title`
and `link` unchanged and sets its `comments` field to exactly the Comment
Extractor's output for that page's markup. -/
theorem item_enricher_frame (session : Network) (story : Story) (html : Html)
    (h : fetch session (ITEM_URL story.id) = Except.ok html) :
    fetch_story_with_comments session story =
      Except.ok { id := story.id, title := story.title, link := story.link,
                  comments := some (parse_comments html) } := by
  unfold fetch_story_with_comments
  rw [h]

/-- Claim C3 witness: enriching row A's story against the fixture detail page
keeps its fields and attaches exactly the page's one parsed comment. -/
theorem item_enricher_frame_witness :
    fetch env_detail (ITEM_URL storyA0.id) = Except.ok detailHtml ∧
    fetch_story_with_comments env_detail storyA0 =
      Except.ok { id := "1", title := "Hello", link := "http://x",
                  comments := some [commentAlice] } := by
  refine ⟨rfl, ?_⟩
  have h := item_enricher_frame env_detail storyA0 detailHtml rfl
  exact h.trans (by decide)

end HN

namespace HN

lemma worker_queue_drop (session : Network) :
    ∀ q : List String, ∃ k, k ≤ q.length ∧ (worker session q).2 = q.drop k
  | [] => ⟨0, by simp, by simp [worker]⟩
  | page :: rest => by
    rcases hf : fetch session page with e | html
    · exact ⟨1, by simp, by simp [worker, hf]⟩
    · rcases hp : parse_stories html with e | stories
      · exact ⟨1, by simp, by simp [worker, hf, hp]⟩
      · cases hE : stories.isEmpty
        · rcases he : enrich_page session stories with e | enriched
          · exact ⟨1, by simp, by simp [worker, hf, hp, hE, he]⟩
          · obtain ⟨k, hk, hq⟩ := worker_queue_drop session rest
            refine ⟨k + 1, by simpa using Nat.succ_le_succ hk, ?_⟩
            rcases hw : worker session rest with ⟨r, q⟩
            have hq' : q = rest.drop k := by
              rw [hw] at hq
              exact hq
            rcases r with e | later <;> simp [worker, hf, hp, hE, he, hw, hq']
        · exact ⟨1, by simp, by simp [worker, hf, hp, hE]⟩

lemma worker_ok_comments (session : Network) :
    ∀ (q : List String) (ss : List Story), (worker session q).1 = Except.ok ss →
      ∀ s ∈ ss, s.comments.isSome = true
  | [], ss, h => by
    simp [worker] at h
    subst h
    simp
  | page :: rest, ss, h => by
    rcases hf : fetch session page with e | html
    · have hw0 : worker session (page :: rest) = (Except.error e, rest) := by
        simp [worker, hf]
      rw [hw0] at h
      simp at h
    · rcases hp : parse_stories html with e | stories
      · have hw0 : worker session (page :: rest) = (Except.error e, rest) := by
          simp [worker, hf, hp]
        rw [hw0] at h
        simp at h
      · cases hE : stories.isEmpty
        · rcases he : enrich_page session stories with e | enriched
          · have hw0 : worker session (page :: rest) = (Except.error e, rest) := by
              simp [worker, hf, hp, hE, he]
            rw [hw0] at h
            simp at h
          · rcases hwr : worker session rest with ⟨r, q⟩
            rcases r with e | later
            · have hw0 : worker session (page :: rest) = (Except.error e, q) := by
                simp [worker, hf, hp, hE, he, hwr]
              rw [hw0] at h
              simp at h
            · have hw0 : worker session (page :: rest) =
                  (Except.ok (enriched ++ later), q) := by
                simp [worker, hf, hp, hE, he, hwr]
              rw [hw0] at h
              simp at h
              subst h
              intro s hs
              rcases List.mem_append.1 hs with h1 | h1
              · exact enrich_page_mem_comments session stories enriched he s h1
              · exact worker_ok_comments session rest later (by rw [hwr]) s h1
        · have hw0 : worker session (page :: rest) = (Except.ok [], rest) := by
            simp [worker, hf, hp, hE]
          rw [hw0] at h
          simp at h
          subst h
          simp

/-- Claim C4: the worker loop exits normally exactly at its two termination
conditions — (a) the queue is empty at claim time, and (b) the fetched
listing page yields zero stories, which halts the worker even though the rest
of the queue remains unclaimed; in every other (error-free) case the loop
continues with the remaining queue, prepending the page's enriched stories to
whatever the continuation produces. -/
theorem worker_termination_conditions (session : Network) (page : String) (html : Html)
    (rest : List String) (stories enriched : List Story) :
    worker session [] = (Except.ok [], []) ∧
    (fetch session page = Except.ok html → parse_stories html = Except.ok [] →
      worker session (page :: rest) = (Except.ok [], rest)) ∧
    (fetch session page = Except.ok html → parse_stories html = Except.ok stories →
      stories ≠ [] → enrich_page session stories = Except.ok enriched →
      worker session (page :: rest) =
        ((worker session rest).1.map (fun later => enriched ++ later),
         (worker session rest).2)) := by
  refine ⟨rfl, ?_, ?_⟩
  · intro h1 h2
    simp [worker, h1, h2]
  · intro h1 h2 h3 h4
    have h5 : stories.isEmpty = false := by
      cases stories
      · exact absurd rfl h3
      · rfl
    rcases hw : worker session rest with ⟨r, q⟩
    rcases r with e | later <;> simp [worker, h1, h2, h5, h4, hw, Except.map]

/-- Claim C4 witness: against the fixture network, the worker halts at once on
the empty queue; halts on a zero-story page leaving the rest of the queue
unclaimed; and on a one-story page enriches the story and continues. -/
theorem worker_termination_conditions_witness :
    worker env1 [] = (Except.ok [], []) ∧
    worker env1 [BASE_URL 2, BASE_URL 3] = (Except.ok [], [BASE_URL 3]) ∧
    worker env1 [BASE_URL 1] = (Except.ok [storyA1], []) := by
  have h2 := (worker_termination_conditions env1 (BASE_URL 2) detailHtml [BASE_URL 3] [] []).2.1
  have h3 := (worker_termination_conditions env1 (BASE_URL 1) listingHtml []
      [storyA0] [storyA1]).2.2
  refine ⟨(worker_termination_conditions env1 "" detailHtml [] [] []).1,
    h2 (by decide) (by decide), ?_⟩
  have h := h3 (by decide) (by decide) (by decide) (by decide)
  exact h.trans (by decide)

/-- Claim C6: no error is caught or retried anywhere in the pipeline — a fetch
error on a listing page crashes the worker; an item-fetch error inside the
enrichment batch of any extracted story crashes the worker; a crashed worker
run in single-worker mode aborts `main` before the throughput line is
printed; and the only exception handled anywhere is the empty-queue condition
at claim time, which exits the loop cleanly. -/
theorem error_propagation (session : Network) (page : String) (html : Html)
    (rest : List String) (stories : List Story) (s : Story) (e : Err) (elapsed : ℚ) :
    (fetch session page = Except.error e →
      worker session (page :: rest) = (Except.error e, rest)) ∧
    (fetch session page = Except.ok html → parse_stories html = Except.ok stories →
      s ∈ stories → fetch session (ITEM_URL s.id) = Except.error e →
      ∃ e', (worker session (page :: rest)).1 = Except.error e') ∧
    ((worker session initial_queue).1 = Except.error e →
      main_single session elapsed = ([single_banner], some e)) ∧
    worker session [] = (Except.ok [], []) := by
  refine ⟨?_, ?_, ?_, rfl⟩
  · intro h1
    simp [worker, h1]
  · intro h1 h2 hmem hfe
    have h5 : stories.isEmpty = false := by
      cases stories
      · simp at hmem
      · rfl
    obtain ⟨e', he'⟩ := enrich_page_error_of_mem session stories s e hmem hfe
    exact ⟨e', by simp [worker, h1, h2, h5, he']⟩
  · intro h1
    simp [main_single, h1]

/-- Claim C6 witness: under a network that fails on everything but page 1, a
failing listing fetch crashes the worker; a failing item fetch inside the
enrichment of page 1's story crashes the worker; the single-worker run aborts
after the banner with that error; and the empty queue exits cleanly. -/
theorem error_propagation_witness :
    worker envMix [BASE_URL 2] = (Except.error (Err.network (BASE_URL 2)), []) ∧
    (∃ e', (worker envMix [BASE_URL 1]).1 = Except.error e') ∧
    main_single envMix 1 = ([single_banner], some (Err.network (ITEM_URL "1"))) ∧
    worker envMix [] = (Except.ok [], []) := by
  have h := error_propagation envMix (BASE_URL 1) listingHtml [] [storyA0] storyA0
      (Err.network (ITEM_URL "1")) 1
  have hA := error_propagation envMix (BASE_URL 2) listingHtml [] [] storyA0
      (Err.network (BASE_URL 2)) 1
  exact ⟨hA.1 (by decide),
    h.2.1 (by decide) (by decide) (by decide) (by decide),
    h.2.2.1 (by decide), h.2.2.2⟩

/-- Claim C7: after the workers finish, the program's output ends with a line
of the exact form `Scraping speed: <N> stories/sec`, where `N` is the total
enriched-story count divided by the elapsed wall-clock duration and rendered
as an integer — in single-worker mode whenever the worker completes without
error, and in pooled mode unconditionally. -/
theorem final_throughput_line (session : Network) (elapsed : ℚ)
    (ss all_stories : List Story) :
    ((worker session initial_queue).1 = Except.ok ss →
      main_single session elapsed =
        ([single_banner,
          "Scraping speed: " ++ toString (rhe ((ss.length : ℚ) / elapsed)) ++
            " stories/sec"], none)) ∧
    main_pooled all_stories elapsed =
      ([multi_banner,
        "Scraping speed: " ++ toString (rhe ((all_stories.length : ℚ) / elapsed)) ++
          " stories/sec"], none) := by
  constructor
  · intro h
    simp [main_single, h, speed_line, format_f0]
  · simp [main_pooled, speed_line, format_f0]

/-- Claim C7 witness: a run whose first listing page yields zero stories halts
with zero stories and prints the banner followed by
`Scraping speed: 0 stories/sec`; pooled mode with an empty aggregate prints
the same final line after its banner. -/
theorem final_throughput_line_witness :
    (worker env_detail initial_queue).1 = Except.ok [] ∧
    main_single env_detail 1 = ([single_banner, "Scraping speed: 0 stories/sec"], none) ∧
    main_pooled [] 1 = ([multi_banner, "Scraping speed: 0 stories/sec"], none) := by
  have h := final_throughput_line env_detail 1 [] []
  have h1 := h.1 (by decide)
  have h2 := h.2
  have e0 : "Scraping speed: " ++
      toString (rhe ((List.length ([] : List Story) : ℚ) / 1)) ++ " stories/sec" =
      "Scraping speed: 0 stories/sec" := by
    have hr : ((List.length ([] : List Story) : ℚ)) / 1 = ((0 : ℤ) : ℚ) := by norm_num
    rw [hr, rhe_intCast]
    decide
  rw [e0] at h1
  rw [e0] at h2
  exact ⟨by decide, h1, h2⟩

/-- Claim C8: the work queue never grows after initialization — setup enqueues
exactly the fixed range of 100 listing URLs, and a worker only removes
entries from the front of the queue, consuming each removed entry exactly
once and re-queueing nothing, so the queue it leaves is a suffix of the queue
it was given and never longer. -/
theorem work_queue_only_shrinks :
    initial_queue.length = 100 ∧
    (∀ (session : Network) (q : List String),
      ∃ k, k ≤ q.length ∧ (worker session q).2 = q.drop k) ∧
    (∀ (session : Network) (q : List String), (worker session q).2.length ≤ q.length) := by
  refine ⟨by decide, fun session q => worker_queue_drop session q, fun session q => ?_⟩
  obtain ⟨k, hk, hq⟩ := worker_queue_drop session q
  rw [hq]
  simp

/-- Claim C10: every story a worker run delivers into the shared result
collection has its `comments` field assigned — the enrichment batch of a page
is awaited in full before that page's stories are appended, so no
comment-less story is ever appended. -/
theorem appended_stories_are_enriched (session : Network) (q : List String)
    (ss : List Story) (h : (worker session q).1 = Except.ok ss) :
    ∀ s ∈ ss, s.comments.isSome = true :=
  worker_ok_comments session q ss h

/-- Claim C10 witness: the fixture run appends exactly one story and that
story carries its comments. -/
theorem appended_stories_are_enriched_witness :
    (worker env1 [BASE_URL 1]).1 = Except.ok [storyA1] ∧
    ∀ s ∈ [storyA1], s.comments.isSome = true :=
  ⟨by decide, appended_stories_are_enriched env1 [BASE_URL 1] [storyA1] (by decide)⟩

end HN
